import Mathlib

/-!
Shallow embedding of the geographic coordinate and vector utilities of the
gl-map repository: the `LngLat` and `LngLatBounds` classes of
src/geo/lng_lat.ts and src/geo/lng_lat_bounds.ts, and the `Point` class.

Modelling conventions:
* Order-theoretic behaviour (validation, bounds, containment, wrapping) is
  embedded over the rationals so that concrete instances are decidable.
* Transcendental arithmetic (distance, rotation, toBounds) is embedded over
  the reals.
* A thrown JavaScript exception (constructor validation failure, property
  access on an undefined corner) is modelled by Option / Except: none or
  error is the exceptional branch.
* For the constructor validation claim, JavaScript numbers are modelled by
  an inductive type recording NaN and the two infinities explicitly.
-/

namespace GLMap

/-- A JavaScript IEEE number, as far as the validation logic observes it:
NaN, the two infinities, or a finite value (modelled as a rational). -/
inductive JSNum where
  | nan : JSNum
  | inf : JSNum
  | ninf : JSNum
  | fin : ℚ → JSNum
deriving DecidableEq, Repr

namespace JSNum

/-- JavaScript isNaN on our number model. -/
def isNaN : JSNum → Bool
  | nan => true
  | _ => false

/-- JavaScript strict less-than: any comparison with NaN is false;
-Infinity is below every non-NaN value, Infinity above. -/
def jsLt : JSNum → JSNum → Bool
  | nan, _ => false
  | _, nan => false
  | inf, _ => false
  | _, inf => true
  | ninf, ninf => false
  | ninf, _ => true
  | _, ninf => false
  | fin a, fin b => a < b

end JSNum

/-- The LngLat constructor of src/geo/lng_lat.ts: throws when lng or lat is
NaN, then throws when the latitude is above 90 or below -90; otherwise the
two fields are stored as given. -/
def LngLat.make (lng lat : JSNum) : Except String (JSNum × JSNum) :=
  if lng.isNaN || lat.isNaN then
    Except.error "Invalid LngLat object"
  else if JSNum.jsLt (JSNum.fin 90) lat || JSNum.jsLt lat (JSNum.fin (-90)) then
    Except.error "Invalid LngLat latitude value: must be between -90 and 90"
  else
    Except.ok (lng, lat)

/-- A geographic coordinate in degrees, over the rationals (no NaN and no
infinity can arise in this fragment of the library once construction has
succeeded on finite inputs). -/
structure LngLat where
  lng : ℚ
  lat : ℚ
deriving DecidableEq, Repr

/-- The validation predicate the LngLat constructor enforces on finite
inputs: the latitude lies in [-90, 90]. -/
def LngLat.Valid (p : LngLat) : Prop :=
  -90 ≤ p.lat ∧ p.lat ≤ 90

instance (p : LngLat) : Decidable p.Valid := by
  unfold LngLat.Valid; infer_instance

/-- The LngLat constructor restricted to finite inputs: none is the thrown
"Invalid LngLat latitude value" error. -/
def LngLat.mk? (lng lat : ℚ) : Option LngLat :=
  if lat > 90 ∨ lat < -90 then none else some ⟨lng, lat⟩

/-- Modelled from the spec: the wrap helper is imported from src/util/util,
which is not in the source tree. The spec describes it as a generic modular
wrap of n into (min, max]: subtract the right multiple of the period, and
return max for the value that lands on min. -/
def wrap (n mn mx : ℚ) : ℚ :=
  let d := mx - mn
  let w := n - d * ⌊(n - mn) / d⌋
  if w = mn then mx else w

/-- LngLat.wrap of src/geo/lng_lat.ts: construct a new LngLat from the
wrapped longitude and the unchanged latitude (the constructor re-validates
the latitude). -/
def LngLat.wrapQ (p : LngLat) : Option LngLat :=
  LngLat.mk? (wrap p.lng (-180) 180) p.lat

/-- A LngLatBounds of src/geo/lng_lat_bounds.ts: each corner is either set
to a LngLat or still undefined. -/
structure LngLatBounds where
  _sw : Option LngLat
  _ne : Option LngLat
deriving DecidableEq, Repr

namespace LngLatBounds

/-- The empty bounds (constructor called with no arguments). -/
def empty : LngLatBounds := ⟨none, none⟩

/-- The constructor called with both corners: setSouthWest(sw).setNorthEast(ne),
a direct assignment of both fields. -/
def mk2 (sw ne : LngLat) : LngLatBounds := ⟨some sw, some ne⟩

/-- setSouthWest: direct replacement of the southwest corner. -/
def setSouthWest (b : LngLatBounds) (sw : LngLat) : LngLatBounds :=
  ⟨some sw, b._ne⟩

/-- setNorthEast: direct replacement of the northeast corner. -/
def setNorthEast (b : LngLatBounds) (ne : LngLat) : LngLatBounds :=
  ⟨b._sw, some ne⟩

/-- isEmpty: true unless both corners are set. -/
def isEmpty (b : LngLatBounds) : Bool :=
  !(b._sw.isSome && b._ne.isSome)

/-- The shared tail of extend, after sw2 and ne2 have been determined.  If
neither own corner is set, both corners are initialised as fresh LngLat
copies (through the validating constructor); if both are set, the corners
are updated elementwise by min and max.  With exactly one corner set the
JavaScript dereferences an undefined corner, a thrown TypeError: none. -/
def extendCorners (b : LngLatBounds) (sw2 ne2 : LngLat) : Option LngLatBounds :=
  match b._sw, b._ne with
  | none, none =>
    match LngLat.mk? sw2.lng sw2.lat, LngLat.mk? ne2.lng ne2.lat with
    | some s, some n => some ⟨some s, some n⟩
    | _, _ => none
  | some sw, some ne =>
    some ⟨some ⟨min sw2.lng sw.lng, min sw2.lat sw.lat⟩,
          some ⟨max ne2.lng ne.lng, max ne2.lat ne.lat⟩⟩
  | _, _ => none

/-- extend: the argument is either a single LngLat (both incoming corners
are that point) or another bounds (whose corners are taken; an argument
bounds missing a corner makes extend a no-op). -/
def extend (b : LngLatBounds) (obj : LngLat ⊕ LngLatBounds) : Option LngLatBounds :=
  match obj with
  | Sum.inl p => extendCorners b p p
  | Sum.inr c =>
    match c._sw, c._ne with
    | some s, some n => extendCorners b s n
    | _, _ => some b

/-- getCenter: the midpoint of the two corners, passed through the LngLat
constructor; accessing an unset corner is a thrown TypeError (none). -/
def getCenter (b : LngLatBounds) : Option LngLat :=
  match b._sw, b._ne with
  | some sw, some ne => LngLat.mk? ((sw.lng + ne.lng) / 2) ((sw.lat + ne.lat) / 2)
  | _, _ => none

/-- getWest: the stored southwest longitude; none when the corner is unset. -/
def getWest (b : LngLatBounds) : Option ℚ := b._sw.map LngLat.lng

/-- getSouth: the stored southwest latitude; none when the corner is unset. -/
def getSouth (b : LngLatBounds) : Option ℚ := b._sw.map LngLat.lat

/-- getEast: the stored northeast longitude; none when the corner is unset. -/
def getEast (b : LngLatBounds) : Option ℚ := b._ne.map LngLat.lng

/-- getNorth: the stored northeast latitude; none when the corner is unset. -/
def getNorth (b : LngLatBounds) : Option ℚ := b._ne.map LngLat.lat

/-- getNorthWest: new LngLat(getWest(), getNorth()). -/
def getNorthWest (b : LngLatBounds) : Option LngLat :=
  match getWest b, getNorth b with
  | some w, some n => LngLat.mk? w n
  | _, _ => none

/-- getSouthEast: new LngLat(getEast(), getSouth()). -/
def getSouthEast (b : LngLatBounds) : Option LngLat :=
  match getEast b, getSouth b with
  | some e, some s => LngLat.mk? e s
  | _, _ => none

/-- LngLat.toString of src/geo/lng_lat.ts. -/
def lngLatToString (p : LngLat) : String :=
  "LngLat(" ++ toString p.lng ++ ", " ++ toString p.lat ++ ")"

/-- toString: interpolates both corners; accessing an unset corner is a
thrown TypeError (none). -/
def toStringQ (b : LngLatBounds) : Option String :=
  match b._sw, b._ne with
  | some sw, some ne =>
    some ("LngLatBounds(" ++ lngLatToString sw ++ ", " ++ lngLatToString ne ++ ")")
  | _, _ => none

/-- contains: an inclusive latitude range check, and a longitude range check
that flips its orientation when the box is antimeridian-wrapped
(sw.lng > ne.lng).  The wrap test reads both corners unconditionally, so any
unset corner is a thrown TypeError (none). -/
def contains (b : LngLatBounds) (lnglat : LngLat) : Option Bool :=
  match b._sw, b._ne with
  | some sw, some ne =>
    let containsLatitude := sw.lat ≤ lnglat.lat ∧ lnglat.lat ≤ ne.lat
    let containsLongitude :=
      if sw.lng > ne.lng then sw.lng ≥ lnglat.lng ∧ lnglat.lng ≥ ne.lng
      else sw.lng ≤ lnglat.lng ∧ lnglat.lng ≤ ne.lng
    some (decide (containsLatitude ∧ containsLongitude))
  | _, _ => none

end LngLatBounds

/-- EARTH_RADIUS of src/geo/lng_lat.ts. -/
noncomputable def EARTH_RADIUS : ℝ := 6371008.8

/-- A geographic coordinate over the reals, for the transcendental
operations (distanceTo, toBounds). -/
structure LngLatR where
  lng : ℝ
  lat : ℝ

/-- The LngLat constructor over the reals (no NaN can arise): none is the
thrown latitude-range error. -/
noncomputable def LngLatR.mkR (lng lat : ℝ) : Option LngLatR :=
  if lat > 90 ∨ lat < -90 then none else some ⟨lng, lat⟩

/-- LngLat.distanceTo of src/geo/lng_lat.ts: spherical law of cosines with
the acos argument clamped to at most 1. -/
noncomputable def LngLatR.distanceTo (p lngLat : LngLatR) : ℝ :=
  let rad := Real.pi / 180
  let lat1 := p.lat * rad
  let lat2 := lngLat.lat * rad
  let a := Real.sin lat1 * Real.sin lat2 +
    Real.cos lat1 * Real.cos lat2 * Real.cos ((lngLat.lng - p.lng) * rad)
  EARTH_RADIUS * Real.arccos (min a 1)

/-- The distance formula exactly as the spec words it: 6371008.8 times
acos of the clamped spherical-law-of-cosines term, with both latitudes and
the longitude difference converted to radians. -/
noncomputable def distanceSpec (p q : LngLatR) : ℝ :=
  let lat1 := p.lat * (Real.pi / 180)
  let lat2 := q.lat * (Real.pi / 180)
  let dlng := (q.lng - p.lng) * (Real.pi / 180)
  6371008.8 * Real.arccos
    (min (Real.sin lat1 * Real.sin lat2 + Real.cos lat1 * Real.cos lat2 * Real.cos dlng) 1)

/-- LngLat.toBounds of src/geo/lng_lat.ts: flat-earth accuracy radii, then
two LngLat constructor calls (southwest first); a constructor throw aborts
the whole call (none). -/
noncomputable def LngLatR.toBounds (p : LngLatR) (radius : ℝ) : Option (LngLatR × LngLatR) :=
  let latAccuracy := 360 * radius / 40075017
  let lngAccuracy := latAccuracy / Real.cos (Real.pi / 180 * p.lat)
  match LngLatR.mkR (p.lng - lngAccuracy) (p.lat - latAccuracy) with
  | none => none
  | some sw =>
    match LngLatR.mkR (p.lng + lngAccuracy) (p.lat + latAccuracy) with
    | none => none
    | some ne => some (sw, ne)

/-- The Point class of the unnamed vector module: a 2D vector over the
reals.  A method call is modelled as a pair (receiver state after the call,
returned value); the underscore-prefixed in-place methods assign to the
receiver and return it, so both components coincide and they are given as
plain state transformers. -/
structure Point where
  x : ℝ
  y : ℝ

namespace Point

/-- clone: a fresh point with the same coordinates. -/
def clone (p : Point) : Point := ⟨p.x, p.y⟩

/-- mag: the Euclidean norm. -/
noncomputable def mag (p : Point) : ℝ := Real.sqrt (p.x * p.x + p.y * p.y)

/-- In-place matrix multiply by a 4-element 2x2 matrix. -/
def _matMult (p : Point) (m : Fin 4 → ℝ) : Point :=
  ⟨m 0 * p.x + m 1 * p.y, m 2 * p.x + m 3 * p.y⟩

/-- In-place elementwise addition. -/
def _add (p q : Point) : Point := ⟨p.x + q.x, p.y + q.y⟩

/-- In-place elementwise subtraction. -/
def _sub (p q : Point) : Point := ⟨p.x - q.x, p.y - q.y⟩

/-- In-place uniform scale. -/
def _mult (p : Point) (k : ℝ) : Point := ⟨p.x * k, p.y * k⟩

/-- In-place uniform divide. -/
noncomputable def _div (p : Point) (k : ℝ) : Point := ⟨p.x / k, p.y / k⟩

/-- In-place elementwise multiplication. -/
def _multByPoint (p q : Point) : Point := ⟨p.x * q.x, p.y * q.y⟩

/-- In-place elementwise division. -/
noncomputable def _divByPoint (p q : Point) : Point := ⟨p.x / q.x, p.y / q.y⟩

/-- In-place normalisation: divide by the magnitude (unguarded at zero). -/
noncomputable def _unit (p : Point) : Point := p._div p.mag

/-- In-place perpendicular: (x, y) becomes (-y, x). -/
def _perp (p : Point) : Point := ⟨-p.y, p.x⟩

/-- In-place rotation about the origin. -/
noncomputable def _rotate (p : Point) (angle : ℝ) : Point :=
  ⟨Real.cos angle * p.x - Real.sin angle * p.y,
   Real.sin angle * p.x + Real.cos angle * p.y⟩

/-- In-place rotation about an arbitrary pivot. -/
noncomputable def _rotateAround (p : Point) (angle : ℝ) (c : Point) : Point :=
  ⟨c.x + Real.cos angle * (p.x - c.x) - Real.sin angle * (p.y - c.y),
   c.y + Real.sin angle * (p.x - c.x) + Real.cos angle * (p.y - c.y)⟩

/-- In-place rounding of both coordinates, JavaScript Math.round (half
towards positive infinity). -/
noncomputable def _round (p : Point) : Point :=
  ⟨((⌊p.x + 1 / 2⌋ : ℤ) : ℝ), ((⌊p.y + 1 / 2⌋ : ℤ) : ℝ)⟩

/-- add: clone then in-place add; the receiver is never written. -/
def add (p q : Point) : Point × Point := (p, p.clone._add q)

/-- sub: clone then in-place subtract. -/
def sub (p q : Point) : Point × Point := (p, p.clone._sub q)

/-- multByPoint: clone then in-place elementwise multiply. -/
def multByPoint (p q : Point) : Point × Point := (p, p.clone._multByPoint q)

/-- divByPoint: clone then in-place elementwise divide. -/
noncomputable def divByPoint (p q : Point) : Point × Point := (p, p.clone._divByPoint q)

/-- mult: clone then in-place scale. -/
def mult (p : Point) (k : ℝ) : Point × Point := (p, p.clone._mult k)

/-- div: clone then in-place divide. -/
noncomputable def div (p : Point) (k : ℝ) : Point × Point := (p, p.clone._div k)

/-- rotate: clone then in-place rotate about the origin. -/
noncomputable def rotate (p : Point) (a : ℝ) : Point × Point := (p, p.clone._rotate a)

/-- rotateAround: clone then in-place rotate about a pivot. -/
noncomputable def rotateAround (p : Point) (a : ℝ) (c : Point) : Point × Point :=
  (p, p.clone._rotateAround a c)

/-- matMult: clone then in-place matrix multiply. -/
def matMult (p : Point) (m : Fin 4 → ℝ) : Point × Point := (p, p.clone._matMult m)

/-- unit: clone then in-place normalise. -/
noncomputable def unit (p : Point) : Point × Point := (p, p.clone._unit)

/-- perp: clone then in-place perpendicular. -/
def perp (p : Point) : Point × Point := (p, p.clone._perp)

/-- round: clone then in-place round. -/
noncomputable def round (p : Point) : Point × Point := (p, p.clone._round)

end Point

/-- The claimed latitude invariant of a bounds: whenever both corners are
set, the southwest latitude is at most the northeast latitude. -/
def LngLatBounds.latOrdered : LngLatBounds → Prop
  | ⟨some s, some n⟩ => s.lat ≤ n.lat
  | ⟨some _, none⟩ => True
  | ⟨none, some _⟩ => True
  | ⟨none, none⟩ => True

instance : (b : LngLatBounds) → Decidable b.latOrdered
  | ⟨some s, some n⟩ => inferInstanceAs (Decidable (s.lat ≤ n.lat))
  | ⟨some _, none⟩ => inferInstanceAs (Decidable True)
  | ⟨none, some _⟩ => inferInstanceAs (Decidable True)
  | ⟨none, none⟩ => inferInstanceAs (Decidable True)

/-- A corner slot is valid when it is unset or holds a valid LngLat; every
corner the library itself stores went through the validating constructor. -/
def ValidOpt : Option LngLat → Prop
  | none => True
  | some p => p.Valid

instance : (o : Option LngLat) → Decidable (ValidOpt o)
  | none => inferInstanceAs (Decidable True)
  | some p => inferInstanceAs (Decidable p.Valid)

/-- Helper: whatever state the bounds is in, a successful extendCorners call
whose two incoming corners already satisfy sw2.lat ≤ ne2.lat produces a
bounds whose corners are latitude-ordered (the empty branch copies the
incoming corners, the two-corner branch takes min on the south latitude and
max on the north latitude). -/
theorem extendCorners_latOrdered {b : LngLatBounds} {sw2 ne2 : LngLat}
    {b2 : LngLatBounds} (hle : sw2.lat ≤ ne2.lat)
    (h : LngLatBounds.extendCorners b sw2 ne2 = some b2) : b2.latOrdered := by
  obtain ⟨osw, one⟩ := b
  cases osw <;> cases one <;> simp only [LngLatBounds.extendCorners] at h
  · cases hsw : LngLat.mk? sw2.lng sw2.lat with
    | none => simp [hsw] at h
    | some s =>
      cases hne : LngLat.mk? ne2.lng ne2.lat with
      | none => simp [hsw, hne] at h
      | some n =>
        simp [hsw, hne] at h
        simp [LngLat.mk?] at hsw hne
        subst h
        obtain ⟨hs1, hs2⟩ := hsw
        obtain ⟨hn1, hn2⟩ := hne
        subst hs2
        subst hn2
        simpa [LngLatBounds.latOrdered] using hle
  · exact absurd h (by simp)
  · exact absurd h (by simp)
  · simp only [Option.some.injEq] at h
    subst h
    simp only [LngLatBounds.latOrdered]
    exact le_trans (le_trans (min_le_left _ _) hle) (le_max_left _ _)

/-- Helper: the wrapped longitude lies in the interval (-180, 180]. -/
theorem wrap_lngRange (n : ℚ) : -180 < wrap n (-180) 180 ∧ wrap n (-180) 180 ≤ 180 := by
  unfold wrap
  norm_num
  have h1 : ((⌊(n + 180) / 360⌋ : ℚ)) ≤ (n + 180) / 360 := Int.floor_le _
  have h2 : (n + 180) / 360 < ⌊(n + 180) / 360⌋ + 1 := Int.lt_floor_add_one _
  split_ifs with h
  · norm_num
  · constructor
    · have h3 : -180 ≤ n - 360 * (⌊(n + 180) / 360⌋ : ℚ) := by nlinarith
      rcases lt_or_eq_of_le h3 with h4 | h4
      · exact h4
      · exact absurd h4.symm h
    · nlinarith

/-- Helper: the wrapped longitude differs from the original by an integer
multiple of 360 degrees. -/
theorem wrap_sub_int (n : ℚ) : ∃ k : ℤ, n - wrap n (-180) 180 = 360 * k := by
  unfold wrap
  norm_num
  split_ifs with h
  · refine ⟨⌊(n + 180) / 360⌋ - 1, ?_⟩
    rw [Int.cast_sub, Int.cast_one]
    linarith
  · exact ⟨⌊(n + 180) / 360⌋, by ring⟩

/-- C1 counterexample: the constructor accepts a non-finite longitude.  With
lng = Infinity and lat = 0 neither isNaN check fires and the latitude range
check passes, so construction succeeds and stores Infinity — refuting the
claim that construction fails for every non-finite input. -/
theorem C1_counterexample :
    LngLat.make JSNum.inf (JSNum.fin 0) = Except.ok (JSNum.inf, JSNum.fin 0) := rfl

/-- C1 (amended): construction succeeds, storing the given values, exactly
when lng is not NaN and lat is a finite value in [-90, 90]; it throws
exactly when lng or lat is NaN, lat is one of the infinities, or lat is a
finite value outside [-90, 90].  A non-finite longitude is accepted. -/
theorem C1_make_ok_iff (lng lat : JSNum) :
    (LngLat.make lng lat = Except.ok (lng, lat) ↔
      lng.isNaN = false ∧ ∃ q : ℚ, lat = JSNum.fin q ∧ -90 ≤ q ∧ q ≤ 90) ∧
    ((∃ e, LngLat.make lng lat = Except.error e) ↔
      (lng.isNaN = true ∨ lat.isNaN = true ∨ lat = JSNum.inf ∨ lat = JSNum.ninf ∨
       ∃ q : ℚ, lat = JSNum.fin q ∧ (90 < q ∨ q < -90))) := by
  cases lng <;> cases lat <;>
    simp [LngLat.make, JSNum.isNaN, JSNum.jsLt] <;>
    (try split_ifs with h) <;>
    simp_all <;> tauto

/-- C2 counterexample: two-corner construction assigns the corners directly,
so LngLatBounds(LngLat(0, 50), LngLat(0, 40)) has both corners set with
southwest.lat = 50 > 40 = northeast.lat — the invariant is not established
by two-corner construction. -/
theorem C2_counterexample :
    ¬ LngLatBounds.latOrdered (LngLatBounds.mk2 ⟨0, 50⟩ ⟨0, 40⟩) ∧
    (LngLatBounds.mk2 ⟨0, 50⟩ ⟨0, 40⟩).isEmpty = false := by decide

/-- C2 (amended): extend does establish and preserve the latitude ordering —
extending with a single point always leaves sw.lat ≤ ne.lat, and extending
with a bounds preserves it provided both boxes satisfy it — but two-corner
construction and the setters assign corners directly without establishing
it. -/
theorem C2_extend_latOrdered :
    (∀ (b : LngLatBounds) (p : LngLat) (b2 : LngLatBounds),
        LngLatBounds.extend b (Sum.inl p) = some b2 → b2.latOrdered) ∧
    (∀ (b c b2 : LngLatBounds),
        b.latOrdered → c.latOrdered →
        LngLatBounds.extend b (Sum.inr c) = some b2 → b2.latOrdered) := by
  constructor
  · intro b p b2 h
    exact extendCorners_latOrdered (le_refl p.lat) h
  · rintro b ⟨csw, cne⟩ b2 hb hc h
    cases csw with
    | none =>
      simp [LngLatBounds.extend] at h
      subst h
      exact hb
    | some s =>
      cases cne with
      | none =>
        simp [LngLatBounds.extend] at h
        subst h
        exact hb
      | some n =>
        simp only [LngLatBounds.extend] at h
        exact extendCorners_latOrdered (by simpa [LngLatBounds.latOrdered] using hc) h

/-- C2 witness: extending the empty bounds with the point (3, 4) yields a
latitude-ordered bounds, and extending the ordered box (0,0)-(1,1) with the
ordered box (2,2)-(3,3) yields the latitude-ordered box (0,0)-(3,3). -/
theorem C2_extend_latOrdered_witness :
    LngLatBounds.latOrdered ⟨some ⟨3, 4⟩, some ⟨3, 4⟩⟩ ∧
    LngLatBounds.latOrdered ⟨some ⟨0, 0⟩, some ⟨3, 3⟩⟩ :=
  ⟨C2_extend_latOrdered.1 LngLatBounds.empty ⟨3, 4⟩ ⟨some ⟨3, 4⟩, some ⟨3, 4⟩⟩ (by decide),
   C2_extend_latOrdered.2 (LngLatBounds.mk2 ⟨0, 0⟩ ⟨1, 1⟩) (LngLatBounds.mk2 ⟨2, 2⟩ ⟨3, 3⟩)
     ⟨some ⟨0, 0⟩, some ⟨3, 3⟩⟩ (by decide) (by decide) (by decide)⟩

/-- C3 counterexample: the antimeridian-wrapped box with sw.lng = 170 and
ne.lng = -170 does NOT contain the point with lng = 180 (latitude in
range): the wrapped branch requires sw.lng ≥ lng, and 170 ≥ 180 fails, so
contains returns false where the claim asserts true. -/
theorem C3_counterexample :
    LngLatBounds.contains (LngLatBounds.mk2 ⟨170, -10⟩ ⟨-170, 10⟩) ⟨180, 0⟩ =
      some false := by decide

/-- C3 (amended): contains returns true iff the latitude passes the
inclusive range check and the longitude passes sw.lng ≤ lng ≤ ne.lng for a
non-wrapped box but sw.lng ≥ lng ≥ ne.lng for a wrapped box
(sw.lng > ne.lng).  In particular the wrapped box sw.lng = 170,
ne.lng = -170 contains lng = 0 and does not contain lng = 180. -/
theorem C3_contains_iff :
    (∀ (sw ne p : LngLat),
      LngLatBounds.contains (LngLatBounds.mk2 sw ne) p = some true ↔
        ((sw.lat ≤ p.lat ∧ p.lat ≤ ne.lat) ∧
          ((sw.lng ≤ ne.lng ∧ sw.lng ≤ p.lng ∧ p.lng ≤ ne.lng) ∨
           (ne.lng < sw.lng ∧ ne.lng ≤ p.lng ∧ p.lng ≤ sw.lng)))) ∧
    LngLatBounds.contains (LngLatBounds.mk2 ⟨170, -10⟩ ⟨-170, 10⟩) ⟨0, 0⟩ = some true ∧
    LngLatBounds.contains (LngLatBounds.mk2 ⟨170, -10⟩ ⟨-170, 10⟩) ⟨180, 0⟩ = some false := by
  refine ⟨?_, by decide, by decide⟩
  intro sw ne p
  simp only [LngLatBounds.contains, LngLatBounds.mk2, Option.some.injEq]
  split_ifs with h
  · simp only [decide_eq_true_eq, ge_iff_le]
    constructor
    · rintro ⟨h1, h2, h3⟩
      exact ⟨h1, Or.inr ⟨h, h3, h2⟩⟩
    · rintro ⟨h1, h2 | h2⟩
      · exact absurd h (not_lt.mpr h2.1)
      · exact ⟨h1, h2.2.2, h2.2.1⟩
  · simp only [decide_eq_true_eq]
    push_neg at h
    constructor
    · rintro ⟨h1, h2, h3⟩
      exact ⟨h1, Or.inl ⟨h, h2, h3⟩⟩
    · rintro ⟨h1, h2 | h2⟩
      · exact ⟨h1, h2.2.1, h2.2.2⟩
      · exact absurd h2.1 (not_lt.mpr h)

/-- C4: distanceTo computes exactly the formula the spec states — EARTH_RADIUS
(which equals 6371008.8) times the arccosine of the spherical-law-of-cosines
term clamped to at most 1, with both latitudes and the longitude difference
converted to radians. -/
theorem C4_distanceTo_eq_spec :
    (∀ p q : LngLatR, LngLatR.distanceTo p q = distanceSpec p q) ∧
    EARTH_RADIUS = 6371008.8 :=
  ⟨fun _ _ => rfl, rfl⟩

/-- C5: for every valid LngLat, wrap returns a new LngLat whose latitude is
unchanged and whose longitude is the original one shifted by an integer
multiple of 360 into (-180, 180]; in particular LngLat(200, 10) wraps to
longitude -160 with latitude 10. -/
theorem C5_wrap :
    (∀ p : LngLat, p.Valid →
      LngLat.wrapQ p = some ⟨wrap p.lng (-180) 180, p.lat⟩ ∧
      -180 < wrap p.lng (-180) 180 ∧ wrap p.lng (-180) 180 ≤ 180 ∧
      ∃ k : ℤ, p.lng - wrap p.lng (-180) 180 = 360 * k) ∧
    LngLat.wrapQ ⟨200, 10⟩ = some ⟨-160, 10⟩ := by
  constructor
  · intro p hv
    obtain ⟨h1, h2⟩ := hv
    refine ⟨?_, (wrap_lngRange p.lng).1, (wrap_lngRange p.lng).2, wrap_sub_int p.lng⟩
    simp [LngLat.wrapQ, LngLat.mk?]
    constructor <;> linarith
  · unfold LngLat.wrapQ wrap LngLat.mk?
    norm_num

/-- C5 witness: the general statement applied at LngLat(200, 10). -/
theorem C5_wrap_witness :
    LngLat.Valid ⟨200, 10⟩ ∧
    (LngLat.wrapQ ⟨200, 10⟩ = some ⟨wrap (200 : ℚ) (-180) 180, (10 : ℚ)⟩ ∧
      -180 < wrap (200 : ℚ) (-180) 180 ∧ wrap (200 : ℚ) (-180) 180 ≤ 180 ∧
      ∃ k : ℤ, (200 : ℚ) - wrap (200 : ℚ) (-180) 180 = 360 * k) :=
  ⟨by decide, C5_wrap.1 ⟨200, 10⟩ (by decide)⟩

/-- C6: extending an empty bounds with a valid point P sets both corners to
fresh value copies of P (a zero-area box), and getCenter of that box is P. -/
theorem C6_extend_point_center (p : LngLat) (hv : p.Valid) :
    LngLatBounds.extend LngLatBounds.empty (Sum.inl p) =
      some ⟨some ⟨p.lng, p.lat⟩, some ⟨p.lng, p.lat⟩⟩ ∧
    LngLatBounds.getCenter ⟨some ⟨p.lng, p.lat⟩, some ⟨p.lng, p.lat⟩⟩ = some p := by
  obtain ⟨h1, h2⟩ := hv
  have hmk : LngLat.mk? p.lng p.lat = some ⟨p.lng, p.lat⟩ := by
    simp [LngLat.mk?]
    constructor <;> linarith
  constructor
  · simp [LngLatBounds.extend, LngLatBounds.extendCorners, LngLatBounds.empty, hmk]
  · simp only [LngLatBounds.getCenter]
    rw [show (p.lng + p.lng) / 2 = p.lng by ring, show (p.lat + p.lat) / 2 = p.lat by ring]
    exact hmk

/-- C6 witness: the statement applied at the point (3, 4). -/
theorem C6_extend_point_center_witness :
    LngLat.Valid ⟨3, 4⟩ ∧
    (LngLatBounds.extend LngLatBounds.empty (Sum.inl ⟨3, 4⟩) =
        some ⟨some ⟨3, 4⟩, some ⟨3, 4⟩⟩ ∧
      LngLatBounds.getCenter ⟨some ⟨3, 4⟩, some ⟨3, 4⟩⟩ = some ⟨3, 4⟩) :=
  ⟨by decide, C6_extend_point_center ⟨3, 4⟩ (by decide)⟩

/-- C7: every copy-returning Point operation leaves the receiver state
unchanged (first component of the method-call pair), while the
underscore-prefixed in-place family does update the receiver (shown on
_add, whose result state differs from the initial state). -/
theorem C7_copy_ops_frame :
    (∀ (p q c : Point) (k a : ℝ) (m : Fin 4 → ℝ),
      (p.add q).1 = p ∧ (p.sub q).1 = p ∧ (p.multByPoint q).1 = p ∧
      (p.divByPoint q).1 = p ∧ (p.mult k).1 = p ∧ (p.div k).1 = p ∧
      (p.rotate a).1 = p ∧ (p.rotateAround a c).1 = p ∧ (p.matMult m).1 = p ∧
      p.unit.1 = p ∧ p.perp.1 = p ∧ p.round.1 = p) ∧
    (Point._add ⟨0, 0⟩ ⟨1, 0⟩).x = 1 ∧ (⟨0, 0⟩ : Point).x = 0 := by
  refine ⟨?_, by simp [Point._add], rfl⟩
  intro p q c k a m
  exact ⟨rfl, rfl, rfl, rfl, rfl, rfl, rfl, rfl, rfl, rfl, rfl, rfl⟩

/-- C8: rotating a point by a and then by -a about the origin returns the
original point, exactly, over real arithmetic. -/
theorem C8_rotate_roundtrip (p : Point) (a : ℝ) :
    ((p.rotate a).2.rotate (-a)).2 = p := by
  obtain ⟨x, y⟩ := p
  simp only [Point.rotate, Point.clone, Point._rotate, Real.cos_neg, Real.sin_neg,
    Point.mk.injEq]
  constructor
  · linear_combination x * Real.sin_sq_add_cos_sq a
  · linear_combination y * Real.sin_sq_add_cos_sq a

/-- C8 witness: the round trip applied at the point (1, 2) with angle 1. -/
theorem C8_rotate_roundtrip_witness :
    (((⟨1, 2⟩ : Point).rotate 1).2.rotate (-1)).2 = (⟨1, 2⟩ : Point) :=
  C8_rotate_roundtrip ⟨1, 2⟩ 1

/-- C9: LngLat(0, 90) is validly constructed, yet toBounds(1) throws: the
northeast corner latitude 90 + latAccuracy exceeds 90, so the inner LngLat
construction fails validation. -/
theorem C9_toBounds_pole_throws :
    LngLatR.mkR 0 90 = some ⟨0, 90⟩ ∧ LngLatR.toBounds ⟨0, 90⟩ 1 = none := by
  constructor
  · norm_num [LngLatR.mkR]
  · simp only [LngLatR.toBounds, LngLatR.mkR]
    norm_num

/-- C10: on a bounds whose set corners are valid, contains, getCenter, the
derived accessors getNorthWest and getSouthEast, and toString each return a
defined result iff both corners are set — their error branch is reachable
exactly when isEmpty holds. -/
theorem C10_partial_accessors (b : LngLatBounds) (p : LngLat)
    (hsw : ValidOpt b._sw) (hne : ValidOpt b._ne) :
    ((LngLatBounds.contains b p).isSome ↔ b.isEmpty = false) ∧
    ((LngLatBounds.getCenter b).isSome ↔ b.isEmpty = false) ∧
    ((LngLatBounds.getNorthWest b).isSome ↔ b.isEmpty = false) ∧
    ((LngLatBounds.getSouthEast b).isSome ↔ b.isEmpty = false) ∧
    ((LngLatBounds.toStringQ b).isSome ↔ b.isEmpty = false) := by
  obtain ⟨osw, one⟩ := b
  cases osw with
  | none =>
    cases one <;>
      simp [LngLatBounds.contains, LngLatBounds.getCenter, LngLatBounds.getNorthWest,
        LngLatBounds.getSouthEast, LngLatBounds.toStringQ, LngLatBounds.isEmpty,
        LngLatBounds.getWest, LngLatBounds.getNorth, LngLatBounds.getEast,
        LngLatBounds.getSouth]
  | some s =>
    cases one with
    | none =>
      simp [LngLatBounds.contains, LngLatBounds.getCenter, LngLatBounds.getNorthWest,
        LngLatBounds.getSouthEast, LngLatBounds.toStringQ, LngLatBounds.isEmpty,
        LngLatBounds.getWest, LngLatBounds.getNorth, LngLatBounds.getEast,
        LngLatBounds.getSouth]
    | some n =>
      simp only [ValidOpt] at hsw hne
      obtain ⟨hs1, hs2⟩ := hsw
      obtain ⟨hn1, hn2⟩ := hne
      have hc : LngLat.mk? ((s.lng + n.lng) / 2) ((s.lat + n.lat) / 2) =
          some ⟨(s.lng + n.lng) / 2, (s.lat + n.lat) / 2⟩ := by
        rw [LngLat.mk?, if_neg]
        push_neg
        constructor <;> linarith
      have hnw : LngLat.mk? s.lng n.lat = some ⟨s.lng, n.lat⟩ := by
        rw [LngLat.mk?, if_neg]
        push_neg
        constructor <;> linarith
      have hse : LngLat.mk? n.lng s.lat = some ⟨n.lng, s.lat⟩ := by
        rw [LngLat.mk?, if_neg]
        push_neg
        constructor <;> linarith
      simp [LngLatBounds.contains, LngLatBounds.getCenter, LngLatBounds.getNorthWest,
        LngLatBounds.getSouthEast, LngLatBounds.toStringQ, LngLatBounds.isEmpty,
        LngLatBounds.getWest, LngLatBounds.getNorth, LngLatBounds.getEast,
        LngLatBounds.getSouth, hc, hnw, hse]

/-- C10 witness: the statement applied to the bounds (0,0)-(1,1) and the
point (0, 0). -/
theorem C10_partial_accessors_witness :
    ValidOpt (some ⟨0, 0⟩) ∧ ValidOpt (some ⟨1, 1⟩) ∧
    (((LngLatBounds.contains ⟨some ⟨0, 0⟩, some ⟨1, 1⟩⟩ ⟨0, 0⟩).isSome ↔
        LngLatBounds.isEmpty ⟨some ⟨0, 0⟩, some ⟨1, 1⟩⟩ = false) ∧
      ((LngLatBounds.getCenter ⟨some ⟨0, 0⟩, some ⟨1, 1⟩⟩).isSome ↔
        LngLatBounds.isEmpty ⟨some ⟨0, 0⟩, some ⟨1, 1⟩⟩ = false) ∧
      ((LngLatBounds.getNorthWest ⟨some ⟨0, 0⟩, some ⟨1, 1⟩⟩).isSome ↔
        LngLatBounds.isEmpty ⟨some ⟨0, 0⟩, some ⟨1, 1⟩⟩ = false) ∧
      ((LngLatBounds.getSouthEast ⟨some ⟨0, 0⟩, some ⟨1, 1⟩⟩).isSome ↔
        LngLatBounds.isEmpty ⟨some ⟨0, 0⟩, some ⟨1, 1⟩⟩ = false) ∧
      ((LngLatBounds.toStringQ ⟨some ⟨0, 0⟩, some ⟨1, 1⟩⟩).isSome ↔
        LngLatBounds.isEmpty ⟨some ⟨0, 0⟩, some ⟨1, 1⟩⟩ = false)) :=
  ⟨by decide, by decide,
   C10_partial_accessors ⟨some ⟨0, 0⟩, some ⟨1, 1⟩⟩ ⟨0, 0⟩ (by decide) (by decide)⟩

end GLMap
